import Mathlib

/-!
Verification of the ha-display-wake client (ha-display-wake.py).

The development shallowly embeds the decision engine (`handle_wake`), the
message dispatch (`on_message`) and the four display-state probe functions
(`get_idle_seconds_x11`, `get_idle_seconds_wayland`, `is_screen_off_x11`,
`is_screen_off_wayland`).  Stateful Python code is modelled by explicit
data flow: the outcome of each external subprocess/D-Bus call is an input
(`DepResult`), and the side effects performed by a handler are returned as
an explicit list of probe operations (`ProbeOp`).
-/

namespace HaDisplayWake

/-- The three actions of the tri-state wake policy.  The Python code has no
explicit decision value; the decision is which branch of `handle_wake` runs
(`return` with no action = `Ignore`, `wake_screen()` = `Wake`,
`reset_idle_timer()` = `ResetIdleTimer`). -/
inductive Decision where
  | Ignore
  | Wake
  | ResetIdleTimer
deriving DecidableEq, Repr

/-- The observable probe operations of the unified display interface:
the two queries (`get_idle_seconds`, `is_screen_off`) and the two mutating
operations (`wake_screen`, `reset_idle_timer`). -/
inductive ProbeOp where
  | queryIdle
  | queryScreenOff
  | wakeScreen
  | resetIdleTimer
deriving DecidableEq, Repr

/-- Whether a probe operation mutates display state (`wake_screen` or
`reset_idle_timer`), as opposed to a read-only query. -/
def ProbeOp.isMutating : ProbeOp → Bool
  | .wakeScreen => true
  | .resetIdleTimer => true
  | .queryIdle => false
  | .queryScreenOff => false

/-- The two configuration entries read by `handle_wake` via `config.get`.
`none` models an absent dictionary key (the remaining keys of the config
dictionary — broker, port, username, password, room, topic — are never read
by the wake handler). -/
structure Config where
  active_threshold : Option Int
  screen_timeout : Option Int
deriving DecidableEq, Repr

/-- The point-in-time evidence a wake evaluation observes: what
`get_idle_seconds()` and `is_screen_off()` would return if queried. -/
structure DisplayState where
  idleSeconds : Int
  screenOff : Bool
deriving DecidableEq, Repr

/-- `handle_wake` (ha-display-wake.py lines 432-451): three-tier wake logic.
Reads `active_threshold` (default 30) and `screen_timeout` (default 1200)
from the config, queries idle time, and returns in tier 1
(`idle < active_threshold`), wakes the screen in tier 3 (screen off), or
resets the idle timer in tier 2.  The returned list records, in order, the
probe operations the run performs; the screen-power query happens only
after tier 1 fails to match. -/
def handle_wake (config : Config) (st : DisplayState) : Decision × List ProbeOp :=
  let active_threshold := config.active_threshold.getD 30
  let _screen_timeout := config.screen_timeout.getD 1200
  let idle := st.idleSeconds
  if idle < active_threshold then
    (Decision.Ignore, [ProbeOp.queryIdle])
  else if st.screenOff then
    (Decision.Wake, [ProbeOp.queryIdle, ProbeOp.queryScreenOff, ProbeOp.wakeScreen])
  else
    (Decision.ResetIdleTimer, [ProbeOp.queryIdle, ProbeOp.queryScreenOff, ProbeOp.resetIdleTimer])

/-- Modelled from the spec: the pure tri-state Decision Engine of spec §4.2,
a function of `(idleSeconds, screenOff, active_threshold)` only, used to
state that `handle_wake` under defaulted configuration realises this
policy. -/
def decisionEngine (active_threshold idleSeconds : Int) (screenOff : Bool) : Decision :=
  if idleSeconds < active_threshold then Decision.Ignore
  else if screenOff then Decision.Wake
  else Decision.ResetIdleTimer

end HaDisplayWake

namespace HaDisplayWake

/-- The outcome of one external dependency call (a subprocess or D-Bus
invocation): either the call failed (raised / timed out — the Python
`except` paths) or it produced some stdout text. -/
inductive DepResult where
  | failure
  | output (stdout : String)
deriving DecidableEq, Repr

/-- ASCII whitespace stripped by Python `str.strip()` (the model restricts
Python's Unicode whitespace classes to their ASCII members, which is all
that the tool outputs and payloads at issue contain). -/
def isPySpace (c : Char) : Bool :=
  c = ' ' || c = '\t' || c = '\n' || c = '\r' || c = '\x0B' || c = '\x0C'

/-- Python `str.strip()`: drop leading and trailing whitespace. -/
def pyStrip (s : String) : String :=
  ⟨((s.data.dropWhile isPySpace).reverse.dropWhile isPySpace).reverse⟩

/-- Numeric value of a decimal digit character. -/
def digitVal (c : Char) : Nat := c.toNat - '0'.toNat

/-- Continuation of Python `int()` digit parsing after at least one digit
has been read: further digits, optionally separated by single
underscores. -/
def pyDigitsRest (acc : Nat) : List Char → Option Nat
  | [] => some acc
  | '_' :: c :: cs =>
    if c.isDigit then pyDigitsRest (10 * acc + digitVal c) cs else none
  | c :: cs =>
    if c.isDigit then pyDigitsRest (10 * acc + digitVal c) cs else none

/-- Python `int()` digit-group parsing: one leading digit, then
`pyDigitsRest`. -/
def pyDigits : List Char → Option Nat
  | [] => none
  | c :: cs => if c.isDigit then pyDigitsRest (digitVal c) cs else none

/-- Python `int(s)` on an already-stripped string: an optional sign
followed by a digit group (the model restricts Python's Unicode decimal
digits to ASCII digits).  `none` models the `ValueError` the surrounding
`except` clause catches. -/
def pyIntOfString (s : String) : Option Int :=
  match s.data with
  | '+' :: cs => (pyDigits cs).map (fun n => (n : Int))
  | '-' :: cs => (pyDigits cs).map (fun n => -(n : Int))
  | cs => (pyDigits cs).map (fun n => (n : Int))

/-- `get_idle_seconds_x11` (lines 287-295): run `xprintidle`, strip its
stdout, parse it with `int()` and floor-divide by 1000 (milliseconds to
seconds, Python `//`); any exception — including a parse failure — returns
0. -/
def get_idle_seconds_x11 (r : DepResult) : Int :=
  match r with
  | .failure => 0
  | .output s =>
    match pyIntOfString (pyStrip s) with
    | some n => Int.fdiv n 1000
    | none => 0

/-- Digit run to number, for regex capture groups. -/
def digitsToNat (l : List Char) : Nat :=
  l.foldl (fun a c => 10 * a + digitVal c) 0

/-- Match the tail of the regex `uint64\s+(\d+)` at the head of the list:
at least one whitespace character, then a maximal non-empty digit run,
whose value is the capture. -/
def matchSpacesDigits : List Char → Option Nat
  | [] => none
  | c :: cs =>
    if isPySpace c then
      match cs.dropWhile isPySpace with
      | [] => none
      | d :: ds =>
        if d.isDigit then some (digitsToNat ((d :: ds).takeWhile Char.isDigit))
        else none
    else none

/-- Match the regex `uint64\s+(\d+)` anchored at the head of the list. -/
def matchUint64At : List Char → Option Nat
  | 'u' :: 'i' :: 'n' :: 't' :: '6' :: '4' :: rest => matchSpacesDigits rest
  | _ => none

/-- `re.search` for `uint64\s+(\d+)`: the leftmost position where the
pattern matches, returning the captured number. -/
def findUint64 : List Char → Option Nat
  | [] => none
  | c :: cs =>
    match matchUint64At (c :: cs) with
    | some n => some n
    | none => findUint64 cs

/-- `get_idle_seconds_wayland` (lines 332-349): call the Mutter
IdleMonitor over D-Bus, search the reply for `uint64\s+(\d+)`, and
floor-divide the captured milliseconds by 1000; no match or any exception
returns 0. -/
def get_idle_seconds_wayland (r : DepResult) : Int :=
  match r with
  | .failure => 0
  | .output s =>
    match findUint64 s.data with
    | some n => ((n / 1000 : Nat) : Int)
    | none => 0

/-- A regex `\w` word character (the model restricts Python's Unicode word
characters to ASCII letters, digits and underscore). -/
def isWordChar (c : Char) : Bool := c.isAlphanum || c = '_'

/-- Match the regex `Monitor is (\w+)` anchored at the head of the list:
the literal `Monitor is ` followed by a maximal non-empty word-character
run, which is the captured state token. -/
def monitorTokenAt : List Char → Option (List Char)
  | 'M' :: 'o' :: 'n' :: 'i' :: 't' :: 'o' :: 'r' :: ' ' :: 'i' :: 's' :: ' ' :: rest =>
    match rest with
    | [] => none
    | c :: _ => if isWordChar c then some (rest.takeWhile isWordChar) else none
  | _ => none

/-- `re.search` for `Monitor is (\w+)`: the leftmost position where the
pattern matches, returning the captured token. -/
def findMonitorToken : List Char → Option (List Char)
  | [] => none
  | c :: cs =>
    match monitorTokenAt (c :: cs) with
    | some t => some t
    | none => findMonitorToken cs

/-- `is_screen_off_x11` (lines 298-309): run `xset q`, search its stdout
for `Monitor is (\w+)`; on a match report whether the captured token
differs from `"On"`, otherwise (no match, or any exception) report
`false`. -/
def is_screen_off_x11 (r : DepResult) : Bool :=
  match r with
  | .failure => false
  | .output s =>
    match findMonitorToken s.data with
    | some t => t != "On".data
    | none => false

/-- Substring containment on character lists (Python `in` on strings). -/
def containsSub (pat : List Char) : List Char → Bool
  | [] => pat.isEmpty
  | c :: cs => pat.isPrefixOf (c :: cs) || containsSub pat cs

/-- `is_screen_off_wayland` (lines 352-366): query the GNOME screensaver
over D-Bus and report whether `"boolean true"` occurs in the reply; any
exception reports `false`. -/
def is_screen_off_wayland (r : DepResult) : Bool :=
  match r with
  | .failure => false
  | .output s => containsSub "boolean true".data s.data

/-- `on_message` (lines 471-474), given the decoded payload text: strip it
and compare with the literal `"wake"`; on an exact match run
`handle_wake`, otherwise do nothing.  The result records the probe
operations performed and the decision taken (`none` when no evaluation
happened).  The UTF-8 decode with replacement that precedes this never
fails, so the payload is modelled post-decode. -/
def on_message (config : Config) (st : DisplayState) (payload : String) :
    List ProbeOp × Option Decision :=
  if pyStrip payload = "wake" then
    ((handle_wake config st).2, some (handle_wake config st).1)
  else
    ([], none)

end HaDisplayWake

namespace HaDisplayWake

/-- C1: for every wake evaluation with `idleSeconds < active_threshold`
(after defaulting), the decision is `Ignore` regardless of `screenOff`,
the only probe operation performed is the idle query — in particular the
screen-power query is not performed and no mutating probe operation is
invoked. -/
theorem handle_wake_active_tier (config : Config) (st : DisplayState)
    (h : st.idleSeconds < config.active_threshold.getD 30) :
    (handle_wake config st).1 = Decision.Ignore
    ∧ (handle_wake config st).2 = [ProbeOp.queryIdle]
    ∧ ProbeOp.queryScreenOff ∉ (handle_wake config st).2
    ∧ ∀ op ∈ (handle_wake config st).2, op.isMutating = false := by
  simp [handle_wake, h, ProbeOp.isMutating]

/-- Concrete instance of `handle_wake_active_tier`: threshold 30, idle 10,
screen reported off. -/
theorem handle_wake_active_tier_w :
    ((⟨10, true⟩ : DisplayState)).idleSeconds
        < ((⟨some 30, some 1200⟩ : Config)).active_threshold.getD 30
    ∧ (handle_wake ⟨some 30, some 1200⟩ ⟨10, true⟩).1 = Decision.Ignore
    ∧ (handle_wake ⟨some 30, some 1200⟩ ⟨10, true⟩).2 = [ProbeOp.queryIdle] :=
  ⟨by decide,
   (handle_wake_active_tier ⟨some 30, some 1200⟩ ⟨10, true⟩ (by decide)).1,
   (handle_wake_active_tier ⟨some 30, some 1200⟩ ⟨10, true⟩ (by decide)).2.1⟩

/-- C2: for every wake evaluation with `idleSeconds >= active_threshold`
(after defaulting) and `screenOff = true`, the decision is `Wake` and the
screen-wake operation is invoked. -/
theorem handle_wake_wake_correct (config : Config) (st : DisplayState)
    (h1 : config.active_threshold.getD 30 ≤ st.idleSeconds)
    (h2 : st.screenOff = true) :
    (handle_wake config st).1 = Decision.Wake
    ∧ ProbeOp.wakeScreen ∈ (handle_wake config st).2 := by
  simp [handle_wake, not_lt.mpr h1, h2]

/-- Concrete instance of `handle_wake_wake_correct`: threshold 30, idle 45,
screen off. -/
theorem handle_wake_wake_correct_w :
    ((⟨some 30, some 1200⟩ : Config)).active_threshold.getD 30
        ≤ ((⟨45, true⟩ : DisplayState)).idleSeconds
    ∧ (handle_wake ⟨some 30, some 1200⟩ ⟨45, true⟩).1 = Decision.Wake :=
  ⟨by decide,
   (handle_wake_wake_correct ⟨some 30, some 1200⟩ ⟨45, true⟩ (by decide) rfl).1⟩

/-- C3: for every wake evaluation with `idleSeconds >= active_threshold`
(after defaulting) and `screenOff = false`, the decision is
`ResetIdleTimer`: the silent idle-timer reset is invoked and the visible
wake is not. -/
theorem handle_wake_silent_reset (config : Config) (st : DisplayState)
    (h1 : config.active_threshold.getD 30 ≤ st.idleSeconds)
    (h2 : st.screenOff = false) :
    (handle_wake config st).1 = Decision.ResetIdleTimer
    ∧ ProbeOp.resetIdleTimer ∈ (handle_wake config st).2
    ∧ ProbeOp.wakeScreen ∉ (handle_wake config st).2 := by
  simp [handle_wake, not_lt.mpr h1, h2]

/-- Concrete instance of `handle_wake_silent_reset`: threshold 30, idle 45,
screen on. -/
theorem handle_wake_silent_reset_w :
    ((⟨some 30, some 1200⟩ : Config)).active_threshold.getD 30
        ≤ ((⟨45, false⟩ : DisplayState)).idleSeconds
    ∧ (handle_wake ⟨some 30, some 1200⟩ ⟨45, false⟩).1 = Decision.ResetIdleTimer :=
  ⟨by decide,
   (handle_wake_silent_reset ⟨some 30, some 1200⟩ ⟨45, false⟩ (by decide) rfl).1⟩

/-- C4: at the boundary `idleSeconds = active_threshold` the Active tier is
not satisfied (the comparison is a strict `<`), so the decision is never
`Ignore`, the screen-power query is performed, and with the screen on the
decision is `ResetIdleTimer`; in particular threshold 30, idle 30,
screen on yields `ResetIdleTimer`. -/
theorem handle_wake_boundary (config : Config) (st : DisplayState)
    (h : st.idleSeconds = config.active_threshold.getD 30) :
    (handle_wake config st).1 ≠ Decision.Ignore
    ∧ ProbeOp.queryScreenOff ∈ (handle_wake config st).2
    ∧ (st.screenOff = false → (handle_wake config st).1 = Decision.ResetIdleTimer) := by
  have h1 : ¬ st.idleSeconds < config.active_threshold.getD 30 := by omega
  cases h2 : st.screenOff <;> simp [handle_wake, h1, h2]

/-- Concrete instance of `handle_wake_boundary`: threshold 30, idle exactly
30, screen on, yields `ResetIdleTimer`. -/
theorem handle_wake_boundary_w :
    ((⟨30, false⟩ : DisplayState)).idleSeconds
        = ((⟨some 30, some 1200⟩ : Config)).active_threshold.getD 30
    ∧ (handle_wake ⟨some 30, some 1200⟩ ⟨30, false⟩).1 = Decision.ResetIdleTimer :=
  ⟨by decide,
   (handle_wake_boundary ⟨some 30, some 1200⟩ ⟨30, false⟩ (by decide)).2.2 rfl⟩

/-- C5: the decoded payload is stripped of surrounding whitespace and
compared for exact equality with the literal `"wake"`: exactly that match
runs `handle_wake` (which begins with the idle probe query), every other
payload performs no probe operation and produces no decision; in
particular `"Wake"`, `"wake now"` and the empty payload are no-ops, and
`"wake "` differs from `"wake"` before the strip but matches after it. -/
theorem on_message_payload_strict (config : Config) (st : DisplayState) (p : String) :
    (pyStrip p = "wake" →
      on_message config st p = ((handle_wake config st).2, some (handle_wake config st).1))
    ∧ (pyStrip p ≠ "wake" → on_message config st p = ([], none))
    ∧ ProbeOp.queryIdle ∈ (handle_wake config st).2
    ∧ on_message config st "Wake" = ([], none)
    ∧ on_message config st "wake now" = ([], none)
    ∧ on_message config st "" = ([], none)
    ∧ "wake " ≠ "wake"
    ∧ pyStrip "wake " = "wake" := by
  refine ⟨fun h => by simp [on_message, h], fun h => by simp [on_message, h], ?_,
    ?_, ?_, ?_, by decide, by decide⟩
  · by_cases h1 : st.idleSeconds < config.active_threshold.getD 30 <;>
      by_cases h2 : st.screenOff <;> simp [handle_wake, h1, h2]
  · simp only [on_message]
    exact if_neg (by decide)
  · simp only [on_message]
    exact if_neg (by decide)
  · simp only [on_message]
    exact if_neg (by decide)

/-- Concrete instance of `on_message_payload_strict`: payload `" wake "`
strips to `"wake"` and triggers the evaluation. -/
theorem on_message_payload_strict_w :
    pyStrip " wake " = "wake"
    ∧ on_message ⟨some 30, some 1200⟩ ⟨45, true⟩ " wake "
        = ((handle_wake ⟨some 30, some 1200⟩ ⟨45, true⟩).2,
           some (handle_wake ⟨some 30, some 1200⟩ ⟨45, true⟩).1) :=
  ⟨by decide,
   (on_message_payload_strict ⟨some 30, some 1200⟩ ⟨45, true⟩ " wake ").1 (by decide)⟩

/-- C6: every probe-dependency failure degrades to the safe default — both
idle queries return 0 and both power queries return `false` — and with the
screen reported on (the power-query failure default) `handle_wake` never
decides `Wake`, whatever the configuration and idle value. -/
theorem fail_safe_degradation :
    get_idle_seconds_x11 DepResult.failure = 0
    ∧ get_idle_seconds_wayland DepResult.failure = 0
    ∧ is_screen_off_x11 DepResult.failure = false
    ∧ is_screen_off_wayland DepResult.failure = false
    ∧ ∀ (config : Config) (idle : Int),
        (handle_wake config ⟨idle, false⟩).1 ≠ Decision.Wake := by
  refine ⟨rfl, rfl, rfl, rfl, ?_⟩
  intro config idle
  by_cases h : idle < config.active_threshold.getD 30 <;> simp [handle_wake, h]

/-- Concrete instance of `fail_safe_degradation`: both queries failed, so
idle is 0 and the screen counts as on, and the decision is not `Wake`. -/
theorem fail_safe_degradation_w :
    (handle_wake ⟨none, none⟩ ⟨get_idle_seconds_x11 DepResult.failure,
        is_screen_off_x11 DepResult.failure⟩).1 ≠ Decision.Wake :=
  fail_safe_degradation.2.2.2.2 ⟨none, none⟩ 0

/-- C7: the decision (and the probe trace) of a wake evaluation does not
depend on `screen_timeout`: two configurations with the same
`active_threshold` entry give identical `handle_wake` results on the same
evidence, whatever their `screen_timeout` entries. -/
theorem screen_timeout_independent (c1 c2 : Config) (st : DisplayState)
    (h : c1.active_threshold = c2.active_threshold) :
    handle_wake c1 st = handle_wake c2 st := by
  simp [handle_wake, h]

/-- Concrete instance of `screen_timeout_independent`: `screen_timeout` 0
versus 86400 with the same threshold. -/
theorem screen_timeout_independent_w :
    ((⟨some 30, some 0⟩ : Config)).active_threshold
        = ((⟨some 30, some 86400⟩ : Config)).active_threshold
    ∧ handle_wake ⟨some 30, some 0⟩ ⟨45, false⟩
        = handle_wake ⟨some 30, some 86400⟩ ⟨45, false⟩ :=
  ⟨rfl, screen_timeout_independent ⟨some 30, some 0⟩ ⟨some 30, some 86400⟩ ⟨45, false⟩ rfl⟩

/-- C8 counterexample: the X11 idle query does not return a non-negative
number for every dependency response — on the response `"-5000"` (a
negative millisecond count accepted by Python `int()`) it returns -5. -/
theorem get_idle_seconds_x11_negative :
    get_idle_seconds_x11 (DepResult.output "-5000") = -5
    ∧ get_idle_seconds_x11 (DepResult.output "-5000") < 0 := by
  constructor <;> decide

/-- C8 amended: the Wayland idle query returns a non-negative value on
every dependency outcome; the X11 idle query returns a non-negative value
whenever the stripped response parses to a non-negative integer — which is
every well-formed `xprintidle` response, an unsigned millisecond count —
and returns 0 on an unparseable response or a failed call. -/
theorem idle_query_nonneg :
    (∀ r, 0 ≤ get_idle_seconds_wayland r)
    ∧ (∀ (s : String) (n : Int), pyIntOfString (pyStrip s) = some n → 0 ≤ n →
        0 ≤ get_idle_seconds_x11 (DepResult.output s))
    ∧ (∀ s : String, pyIntOfString (pyStrip s) = none →
        get_idle_seconds_x11 (DepResult.output s) = 0)
    ∧ get_idle_seconds_x11 DepResult.failure = 0 := by
  refine ⟨?_, ?_, ?_, rfl⟩
  · intro r
    cases r with
    | failure => simp [get_idle_seconds_wayland]
    | output s =>
      cases h : findUint64 s.data with
      | none => simp [get_idle_seconds_wayland, h]
      | some n =>
        simp only [get_idle_seconds_wayland, h]
        exact Int.natCast_nonneg _
  · intro s n h hn
    simp only [get_idle_seconds_x11, h]
    exact Int.fdiv_nonneg hn (by norm_num)
  · intro s h
    simp [get_idle_seconds_x11, h]

/-- Concrete instance of `idle_query_nonneg`: the response `" 45123\n"`
parses to 45123 ms and yields a non-negative idle time. -/
theorem idle_query_nonneg_w :
    pyIntOfString (pyStrip " 45123\n") = some 45123
    ∧ (0 : Int) ≤ 45123
    ∧ 0 ≤ get_idle_seconds_x11 (DepResult.output " 45123\n") :=
  ⟨by decide, by decide, idle_query_nonneg.2.1 " 45123\n" 45123 (by decide) (by decide)⟩

/-- C9: the X11 power query reports screen-off exactly when a
`Monitor is <state>` token is found in the response and the captured state
token differs from the literal `"On"`; when no such token can be parsed,
or the call fails, it reports `false`. -/
theorem is_screen_off_x11_spec (s : String) :
    (∀ t, findMonitorToken s.data = some t →
      (is_screen_off_x11 (DepResult.output s) = true ↔ t ≠ "On".data))
    ∧ (findMonitorToken s.data = none →
        is_screen_off_x11 (DepResult.output s) = false)
    ∧ is_screen_off_x11 DepResult.failure = false := by
  refine ⟨?_, ?_, rfl⟩
  · intro t ht
    simp [is_screen_off_x11, ht]
  · intro hn
    simp [is_screen_off_x11, hn]

/-- Concrete instance of `is_screen_off_x11_spec`: token `Standby` reports
screen-off, a response with no monitor token reports screen-on. -/
theorem is_screen_off_x11_spec_w :
    is_screen_off_x11 (DepResult.output "Monitor is Standby") = true
    ∧ is_screen_off_x11 (DepResult.output "no monitor state here") = false :=
  ⟨((is_screen_off_x11_spec "Monitor is Standby").1 "Standby".data (by decide)).mpr
      (by decide),
   (is_screen_off_x11_spec "no monitor state here").2.1 (by decide)⟩

/-- C10: with the `active_threshold` and `screen_timeout` keys absent,
`handle_wake` behaves exactly as with `active_threshold = 30` and
`screen_timeout = 1200`, and its decision is the tri-state policy under
threshold 30; an absent `active_threshold` alone likewise behaves as 30
for any `screen_timeout` entry. -/
theorem handle_wake_default_config (st : DisplayState) :
    handle_wake ⟨none, none⟩ st = handle_wake ⟨some 30, some 1200⟩ st
    ∧ (handle_wake ⟨none, none⟩ st).1 = decisionEngine 30 st.idleSeconds st.screenOff
    ∧ ∀ t : Option Int, handle_wake ⟨none, t⟩ st = handle_wake ⟨some 30, t⟩ st := by
  refine ⟨rfl, ?_, fun t => rfl⟩
  by_cases h1 : st.idleSeconds < (30 : Int) <;> by_cases h2 : st.screenOff <;>
    simp [handle_wake, decisionEngine, h1, h2]

end HaDisplayWake
